import Mathlib

/-!
Shallow embedding of the boot orchestration core of a minimal virtual-machine
firmware (file src/main.rs of the repository, together with the global panic
handler and the SSE bring-up routine it contains).

The orchestrator interacts with external collaborators (block device, partition
finder, FAT filesystem, default-entry loader, PE loader, EFI exec shim) only
through fallible calls whose results drive its control flow.  We embed one boot
attempt as a pure function from an environment recording each collaborator
response to the attempt outcome together with a trace of observable events
(collaborator calls and log lines), mirroring the Rust control flow of
`boot_from_device` statement by statement.  Log format arguments other than the
block-device capacity are elided; the capacity is kept because one claim is
about its non-interference.
-/

/-- Observable events of one firmware run: collaborator calls (with the
arguments the orchestrator passes) and log lines. -/
inductive Event where
  | deviceInit
  | getCapacity
  | logCapacity (c : Nat)
  | log (msg : String)
  | findEfiPartition
  | fsNew (startSector stopSector : Nat)
  | fsInit
  | loadDefaultEntry
  | kernelBoot
  | fsOpen (path : String)
  | peLoaderNew
  | peLoad (addr : Nat)
  | efiExec (entry addr size : Nat)
  | transportNew
  | blockDeviceNew
  | printBus
  | panicHandlerEntered
  | hltLoop
  deriving DecidableEq, Repr

/-- Collaborator responses for one candidate device, one field per fallible
call site of `boot_from_device` (plus the reported capacity).  Errors carry
their debug text. -/
structure DeviceEnv where
  initResult : Except String Unit
  capacity : Nat
  partitionResult : Except String (Nat × Nat)
  fsInitResult : Except String Unit
  defaultEntryResult : Except String Unit
  openResult : String → Except String Unit
  peLoadResult : Nat → Except String (Nat × Nat × Nat)

/-- The fixed fallback path literal passed to `Filesystem.open`
(src/main.rs line 131). -/
def FALLBACK_PATH : String := "/EFI/BOOT/BOOTX64 EFI"

/-- The fixed PE load base (src/main.rs line 142, `0x20_0000`). -/
def PE_LOAD_ADDR : Nat := 0x200000

/-- Outcome of one boot attempt.  The Rust function returns `bool`, but the
two `true` returns are preceded by a control transfer that never returns;
we keep the three terminal states apart. -/
inductive BootOutcome where
  | abandoned
  | divergedKernelBoot
  | divergedEfiExec
  deriving DecidableEq, Repr

/-- The `bool` value `boot_from_device` returns for each outcome. -/
def BootOutcome.toBool : BootOutcome → Bool
  | .abandoned => false
  | .divergedKernelBoot => true
  | .divergedEfiExec => true

/-- Shallow embedding of `boot_from_device` (src/main.rs lines 95-154):
init the device, log capacity, find the EFI partition, build and init the
FAT filesystem, try the default-entry loader, and on its failure fall back
to opening the fixed EFI path, PE-loading it at the fixed base, and running
it through the EFI exec shim.  Each arm returns the outcome and the full
event trace of that path. -/
def boot_from_device (env : DeviceEnv) : BootOutcome × List Event :=
  match env.initResult with
  | .error _ =>
    (.abandoned, [.deviceInit, .log "Error configuring block device"])
  | .ok _ =>
    match env.partitionResult with
    | .error _ =>
      (.abandoned,
        [.deviceInit, .getCapacity, .logCapacity env.capacity,
         .findEfiPartition, .log "Failed to find EFI partition"])
    | .ok (ps, pq) =>
      match env.fsInitResult with
      | .error _ =>
        (.abandoned,
          [.deviceInit, .getCapacity, .logCapacity env.capacity,
           .findEfiPartition, .log "Found EFI partition",
           .fsNew ps pq, .fsInit, .log "Failed to create filesystem"])
      | .ok _ =>
        match env.defaultEntryResult with
        | .ok _ =>
          (.divergedKernelBoot,
            [.deviceInit, .getCapacity, .logCapacity env.capacity,
             .findEfiPartition, .log "Found EFI partition",
             .fsNew ps pq, .fsInit, .log "Filesystem ready",
             .loadDefaultEntry, .log "Jumping to kernel", .kernelBoot])
        | .error _ =>
          match env.openResult FALLBACK_PATH with
          | .error _ =>
            (.abandoned,
              [.deviceInit, .getCapacity, .logCapacity env.capacity,
               .findEfiPartition, .log "Found EFI partition",
               .fsNew ps pq, .fsInit, .log "Filesystem ready",
               .loadDefaultEntry, .log "Error loading default entry",
               .log "Using EFI boot.", .fsOpen FALLBACK_PATH,
               .log "Failed to load default EFI binary"])
          | .ok _ =>
            match env.peLoadResult PE_LOAD_ADDR with
            | .error _ =>
              (.abandoned,
                [.deviceInit, .getCapacity, .logCapacity env.capacity,
                 .findEfiPartition, .log "Found EFI partition",
                 .fsNew ps pq, .fsInit, .log "Filesystem ready",
                 .loadDefaultEntry, .log "Error loading default entry",
                 .log "Using EFI boot.", .fsOpen FALLBACK_PATH,
                 .log "Found bootloader (BOOTX64.EFI)",
                 .peLoaderNew, .peLoad PE_LOAD_ADDR,
                 .log "Error loading executable"])
            | .ok (ea, la, sz) =>
              (.divergedEfiExec,
                [.deviceInit, .getCapacity, .logCapacity env.capacity,
                 .findEfiPartition, .log "Found EFI partition",
                 .fsNew ps pq, .fsInit, .log "Filesystem ready",
                 .loadDefaultEntry, .log "Error loading default entry",
                 .log "Using EFI boot.", .fsOpen FALLBACK_PATH,
                 .log "Found bootloader (BOOTX64.EFI)",
                 .peLoaderNew, .peLoad PE_LOAD_ADDR,
                 .log "Executable loaded", .efiExec ea la sz])

/-- Whether an event is a log line (pure observability). -/
def Event.isLog : Event → Bool
  | .log _ => true
  | .logCapacity _ => true
  | _ => false

/-- The collaborator-call part of a trace, log lines removed. -/
def calls (t : List Event) : List Event :=
  t.filter (fun e => !e.isLog)

/-- Whether an event is a call into the device / partition / filesystem /
loader collaborators (as opposed to logging, the PCI bus dump, or the
terminal halt machinery). -/
def Event.isCollabCall : Event → Bool
  | .log _ => false
  | .logCapacity _ => false
  | .printBus => false
  | .panicHandlerEntered => false
  | .hltLoop => false
  | _ => true

/-- One PCI device on the bus: its configuration-space identity and the
behaviour of the virtio block device behind it (how the collaborators
respond once the orchestrator probes it). -/
structure PciDevice where
  vendorId : Nat
  deviceId : Nat
  env : DeviceEnv

/-- `VIRTIO_PCI_VENDOR_ID` (src/main.rs line 91). -/
def VIRTIO_PCI_VENDOR_ID : Nat := 0x1af4

/-- `VIRTIO_PCI_BLOCK_DEVICE_ID` (src/main.rs line 92). -/
def VIRTIO_PCI_BLOCK_DEVICE_ID : Nat := 0x1042

/-- Whether a PCI device carries the fixed virtio-blk identity pair. -/
def matchesVirtio (d : PciDevice) : Bool :=
  d.vendorId == VIRTIO_PCI_VENDOR_ID && d.deviceId == VIRTIO_PCI_BLOCK_DEVICE_ID

/-- The per-candidate trace: the closure in `main` constructs a fresh
`VirtioPciTransport` and a fresh `VirtioBlockDevice` for the candidate and
then runs `boot_from_device` on them (src/main.rs lines 192-196). -/
def perDevice (d : PciDevice) : List Event :=
  Event.transportNew :: Event.blockDeviceNew :: (boot_from_device d.env).2

/-- The `bool` the enumeration callback of `main` returns for a candidate. -/
def succeedsB (d : PciDevice) : Bool :=
  (boot_from_device d.env).1.toBool

/-- The enumeration callback passed by `main` to `pci::with_devices`
(src/main.rs lines 192-196): fresh transport, fresh block device, then
one boot attempt; it returns the `bool` of `boot_from_device`. -/
def device_callback (d : PciDevice) : Bool × List Event :=
  (succeedsB d, perDevice d)

/-- Modelled from the spec: `pci::with_devices` (module `pci` of this
repository is not among the provided sources; only its caller in
src/main.rs is).  Per the spec, enumeration walks the bus in scan order,
invokes the callback exactly for the devices whose identity matches the
given vendor/device pair, and is short-circuiting: the first callback
invocation that returns `true` ends the enumeration, and each abandonment
continues with the next match.  Returns whether some callback returned
`true`, together with the concatenated traces of the invoked callbacks. -/
def with_devices (vid did : Nat) (f : PciDevice → Bool × List Event) :
    List PciDevice → Bool × List Event
  | [] => (false, [])
  | d :: rest =>
    if d.vendorId == vid && d.deviceId == did then
      if (f d).1 then (true, (f d).2)
      else
        ((with_devices vid did f rest).1,
          (f d).2 ++ (with_devices vid did f rest).2)
    else with_devices vid did f rest

/-- Terminal state of `main`: either the processor is halted (no bootable
device) or control was transferred into a guest image.  `main` never
returns: these are the only two ways a run ends. -/
inductive MainOutcome where
  | halted
  | diverged
  deriving DecidableEq, Repr

/-- The fatal message of the final `panic!` in `main` (src/main.rs line 199). -/
def NO_BOOT_MSG : String := "Unable to boot from any virtio-blk device"

/-- Shallow embedding of the global `#[panic_handler]` function `panic`
(src/main.rs lines 64-77): with the log-panic build feature it logs the
panic description and loops on `hlt`, without it it loops silently.
`logPanic` selects the build variant. -/
def panic_handler (logPanic : Bool) (msg : String) : List Event :=
  Event.panicHandlerEntered ::
    (if logPanic then [Event.log ("PANIC: " ++ msg)] else []) ++ [Event.hltLoop]

/-- Shallow embedding of `main` (src/main.rs lines 183-200): log the
banner, dump the PCI bus, enumerate virtio-blk-identified devices through
`pci::with_devices` with the boot callback, and on exhaustion invoke the
`panic!` macro with the fatal message, which dispatches (per the language
semantics of `panic!`) to the registered global panic handler. -/
def run (logPanic : Bool) (devs : List PciDevice) : MainOutcome × List Event :=
  match with_devices VIRTIO_PCI_VENDOR_ID VIRTIO_PCI_BLOCK_DEVICE_ID
      device_callback devs with
  | (true, t) => (.diverged, [.log "Booting with", .printBus] ++ t)
  | (false, t) =>
    (.halted,
      [.log "Booting with", .printBus] ++ t ++ panic_handler logPanic NO_BOOT_MSG)

/-- The list of candidates the enumeration actually probes: the matching
devices in bus order, cut off just after the first one whose attempt
succeeds. -/
def attempted : List PciDevice → List PciDevice
  | [] => []
  | d :: rest =>
    if matchesVirtio d then
      if succeedsB d then [d] else d :: attempted rest
    else attempted rest

/-- Cr0Flags::MONITOR_COPROCESSOR, bit 1 of CR0. -/
def CR0_MONITOR_COPROCESSOR : Nat := 2 ^ 1

/-- Cr0Flags::EMULATE_COPROCESSOR, bit 2 of CR0. -/
def CR0_EMULATE_COPROCESSOR : Nat := 2 ^ 2

/-- Cr4Flags::OSFXSR, bit 9 of CR4. -/
def CR4_OSFXSR : Nat := 2 ^ 9

/-- Cr4Flags::OSXMMEXCPT_ENABLE, bit 10 of CR4. -/
def CR4_OSXMMEXCPT_ENABLE : Nat := 2 ^ 10

/-- Shallow embedding of `enable_sse` (src/main.rs lines 80-89) acting on
the raw 64-bit CR0 and CR4 register values: read CR0, remove
EMULATE_COPROCESSOR, insert MONITOR_COPROCESSOR, write it back; read CR4,
insert OSFXSR and OSXMMEXCPT_ENABLE, write it back.  Flag removal is
bitwise and-not and insertion is bitwise or, the composite of the
x86_64-crate flag read/modify/write (whose `write` keeps the reserved
bits of the old raw value). -/
def enable_sse (cr0 cr4 : Nat) : Nat × Nat :=
  let cr0a := cr0 &&& ((2 ^ 64 - 1) ^^^ CR0_EMULATE_COPROCESSOR)
  let cr0b := cr0a ||| CR0_MONITOR_COPROCESSOR
  let cr4a := cr4 ||| CR4_OSFXSR
  let cr4b := cr4a ||| CR4_OSXMMEXCPT_ENABLE
  (cr0b, cr4b)

/-- A device environment on which every stage up to the default-entry
loader succeeds: the default-entry strategy boots. -/
def kernelEnv : DeviceEnv where
  initResult := .ok ()
  capacity := 204800
  partitionResult := .ok (2048, 104448)
  fsInitResult := .ok ()
  defaultEntryResult := .ok ()
  openResult := fun _ => .ok ()
  peLoadResult := fun _ => .ok (0x201000, 0x200000, 0x8000)

/-- A device environment with no default entry but a loadable fallback EFI
application: the fallback strategy boots. -/
def efiEnv : DeviceEnv where
  initResult := .ok ()
  capacity := 204800
  partitionResult := .ok (2048, 104448)
  fsInitResult := .ok ()
  defaultEntryResult := .error "NotFound"
  openResult := fun _ => .ok ()
  peLoadResult := fun _ => .ok (0x201000, 0x200000, 0x8000)

/-- A device environment with no default entry and a fallback file whose
PE header the loader rejects. -/
def badPeEnv : DeviceEnv where
  initResult := .ok ()
  capacity := 204800
  partitionResult := .ok (2048, 104448)
  fsInitResult := .ok ()
  defaultEntryResult := .error "NotFound"
  openResult := fun _ => .ok ()
  peLoadResult := fun _ => .error "InvalidExecutable"

/-- A device environment whose block-device init fails. -/
def deadEnv : DeviceEnv where
  initResult := .error "Timeout"
  capacity := 0
  partitionResult := .ok (2048, 104448)
  fsInitResult := .ok ()
  defaultEntryResult := .ok ()
  openResult := fun _ => .ok ()
  peLoadResult := fun _ => .ok (0x201000, 0x200000, 0x8000)

/-- A matching virtio-blk device whose attempt boots via the default entry. -/
def bootableDev : PciDevice where
  vendorId := 0x1af4
  deviceId := 0x1042
  env := kernelEnv

/-- A matching virtio-blk device whose attempt abandons at device init. -/
def deadDev : PciDevice where
  vendorId := 0x1af4
  deviceId := 0x1042
  env := deadEnv

/-- A PCI device that is not a virtio block device. -/
def otherDev : PciDevice where
  vendorId := 0x8086
  deviceId := 0x10d3
  env := kernelEnv

/-- A bus with a foreign device, a broken virtio-blk device, a bootable
one, and a further broken one that is never probed. -/
def demoDevs : List PciDevice := [otherDev, deadDev, bootableDev, deadDev]

/-- A bus of two matching bootable devices: the first one diverges. -/
def twoBootable : List PciDevice := [bootableDev, bootableDev]

example : (boot_from_device kernelEnv).1 = .divergedKernelBoot := by decide
example : (boot_from_device efiEnv).1 = .divergedEfiExec := by decide
example : (boot_from_device badPeEnv).1 = .abandoned := by decide
example : calls (boot_from_device deadEnv).2 = [.deviceInit] := by decide
example : attempted [otherDev, deadDev, bootableDev, deadDev] = [deadDev, bootableDev] := rfl
example : (run true []).1 = .halted := by decide
example : (run true [otherDev, bootableDev]).1 = .diverged := by decide
example : enable_sse 0xffffffffffffffff 0 = (0xfffffffffffffffb, 0x600) := by decide

lemma toBool_eq_false {o : BootOutcome} : o.toBool = false ↔ o = .abandoned := by
  cases o <;> simp [BootOutcome.toBool]

/-- The specialised enumeration of `main` computes exactly the concatenated
per-candidate traces of the `attempted` list, and reports success iff some
attempted candidate succeeded. -/
lemma with_devices_spec (devs : List PciDevice) :
    with_devices VIRTIO_PCI_VENDOR_ID VIRTIO_PCI_BLOCK_DEVICE_ID
        device_callback devs
      = ((attempted devs).any succeedsB, (attempted devs).flatMap perDevice) := by
  induction devs with
  | nil => rfl
  | cons d rest ih =>
    simp only [with_devices, attempted]
    by_cases hm : matchesVirtio d
    · rw [show (d.vendorId == VIRTIO_PCI_VENDOR_ID
          && d.deviceId == VIRTIO_PCI_BLOCK_DEVICE_ID) = true from hm]
      by_cases hs : succeedsB d
      · simp [device_callback, hm, hs, perDevice]
      · simp [device_callback, hm, hs, ih]
    · rw [show (d.vendorId == VIRTIO_PCI_VENDOR_ID
          && d.deviceId == VIRTIO_PCI_BLOCK_DEVICE_ID) = false from
            Bool.eq_false_iff.mpr hm]
      simp only [if_false, Bool.false_eq_true, ih, hm]

/-- The full trace of `run`: banner and bus dump, the attempted candidates
in order, and on exhaustion the panic handler. -/
lemma run_trace (lp : Bool) (devs : List PciDevice) :
    run lp devs
      = ((if (attempted devs).any succeedsB then .diverged else .halted),
         [Event.log "Booting with", Event.printBus]
           ++ (attempted devs).flatMap perDevice
           ++ (if (attempted devs).any succeedsB then []
               else panic_handler lp NO_BOOT_MSG)) := by
  simp only [run, with_devices_spec]
  by_cases h : (attempted devs).any succeedsB <;> simp [h]

/-- Every attempted candidate carries the virtio-blk identity. -/
lemma attempted_matches {devs : List PciDevice} {d : PciDevice}
    (h : d ∈ attempted devs) : matchesVirtio d = true := by
  induction devs with
  | nil => simp [attempted] at h
  | cons a rest ih =>
    simp only [attempted] at h
    by_cases hm : matchesVirtio a
    · rw [if_pos hm] at h
      by_cases hs : succeedsB a
      · rw [if_pos hs] at h
        simp at h
        subst h
        exact hm
      · rw [if_neg hs] at h
        rcases List.mem_cons.mp h with h | h
        · subst h; exact hm
        · exact ih h
    · rw [if_neg hm] at h
      exact ih h

lemma init_gate (env2 : DeviceEnv)
    (hmem : Event.findEfiPartition ∈ (boot_from_device env2).2) :
    env2.initResult = .ok () := by
  rcases h1 : env2.initResult with e1 | u1
  · simp [boot_from_device, h1] at hmem
  · cases u1; rfl

lemma partition_gate (env2 : DeviceEnv)
    (hmem : Event.fsInit ∈ (boot_from_device env2).2) :
    ∃ p, env2.partitionResult = .ok p := by
  rcases h1 : env2.initResult with e1 | u1
  · simp [boot_from_device, h1] at hmem
  · rcases h2 : env2.partitionResult with e2 | pp
    · simp [boot_from_device, h1, h2] at hmem
    · exact ⟨pp, rfl⟩

lemma fs_gate (env2 : DeviceEnv)
    (hmem : Event.loadDefaultEntry ∈ (boot_from_device env2).2) :
    env2.fsInitResult = .ok () := by
  rcases h1 : env2.initResult with e1 | u1
  · simp [boot_from_device, h1] at hmem
  · rcases h2 : env2.partitionResult with e2 | ⟨ps, pq⟩
    · simp [boot_from_device, h1, h2] at hmem
    · rcases h3 : env2.fsInitResult with e3 | u3
      · simp [boot_from_device, h1, h2, h3] at hmem
      · cases u3; rfl

lemma default_entry_gate (env2 : DeviceEnv)
    (hmem : Event.fsOpen FALLBACK_PATH ∈ (boot_from_device env2).2) :
    ∃ e2, env2.defaultEntryResult = .error e2 := by
  rcases h1 : env2.initResult with e1 | u1
  · simp [boot_from_device, h1] at hmem
  · rcases h2 : env2.partitionResult with e2 | ⟨ps, pq⟩
    · simp [boot_from_device, h1, h2] at hmem
    · rcases h3 : env2.fsInitResult with e3 | u3
      · simp [boot_from_device, h1, h2, h3] at hmem
      · rcases h4 : env2.defaultEntryResult with e4 | u4
        · exact ⟨e4, rfl⟩
        · simp [boot_from_device, h1, h2, h3, h4] at hmem

lemma open_gate (env2 : DeviceEnv)
    (hmem : Event.peLoad PE_LOAD_ADDR ∈ (boot_from_device env2).2) :
    env2.openResult FALLBACK_PATH = .ok () := by
  rcases h1 : env2.initResult with e1 | u1
  · simp [boot_from_device, h1] at hmem
  · rcases h2 : env2.partitionResult with e2 | ⟨ps, pq⟩
    · simp [boot_from_device, h1, h2] at hmem
    · rcases h3 : env2.fsInitResult with e3 | u3
      · simp [boot_from_device, h1, h2, h3] at hmem
      · rcases h4 : env2.defaultEntryResult with e4 | u4
        · rcases h5 : env2.openResult FALLBACK_PATH with e5 | u5
          · simp [boot_from_device, h1, h2, h3, h4, h5] at hmem
          · cases u5; rfl
        · simp [boot_from_device, h1, h2, h3, h4] at hmem

/-- Every attempted candidate is one of the enumerated devices. -/
lemma attempted_subset {devs : List PciDevice} {d : PciDevice}
    (h : d ∈ attempted devs) : d ∈ devs := by
  induction devs with
  | nil => simp [attempted] at h
  | cons a rest ih =>
    simp only [attempted] at h
    by_cases hm : matchesVirtio a
    · rw [if_pos hm] at h
      by_cases hs : succeedsB a
      · rw [if_pos hs] at h
        simp at h
        subst h
        exact List.mem_cons_self _ _
      · rw [if_neg hs] at h
        rcases List.mem_cons.mp h with h | h
        · subst h; exact List.mem_cons_self _ _
        · exact List.mem_cons_of_mem a (ih h)
    · rw [if_neg hm] at h
      exact List.mem_cons_of_mem a (ih h)

/-- The attempted list is an initial segment of the matching devices in bus
order. -/
lemma attempted_filter_split (devs : List PciDevice) :
    ∃ rest, devs.filter matchesVirtio = attempted devs ++ rest := by
  induction devs with
  | nil => exact ⟨[], rfl⟩
  | cons a rest ih =>
    rcases ih with ⟨tl, htl⟩
    by_cases hm : matchesVirtio a
    · by_cases hs : succeedsB a
      · exact ⟨rest.filter matchesVirtio,
          by simp [List.filter_cons, hm, attempted, hs]⟩
      · exact ⟨tl, by simp [List.filter_cons, hm, attempted, hs, htl]⟩
    · simpa [List.filter_cons, hm, attempted] using ⟨tl, htl⟩

/-- When no matching device succeeds, every matching device is attempted. -/
lemma attempted_eq_filter {devs : List PciDevice}
    (h : ∀ d ∈ devs, matchesVirtio d = true → succeedsB d = false) :
    attempted devs = devs.filter matchesVirtio := by
  induction devs with
  | nil => rfl
  | cons a rest ih =>
    by_cases hm : matchesVirtio a
    · have hs := h a (List.mem_cons_self a rest) hm
      simp [attempted, List.filter_cons, hm, hs,
        ih fun d hd => h d (List.mem_cons_of_mem a hd)]
    · simp [attempted, List.filter_cons, hm,
        ih fun d hd => h d (List.mem_cons_of_mem a hd)]

/-- With no matching device at all, nothing is attempted. -/
lemma attempted_nil {devs : List PciDevice}
    (h : ∀ d ∈ devs, matchesVirtio d = false) : attempted devs = [] := by
  rcases attempted_filter_split devs with ⟨tl, htl⟩
  have : devs.filter matchesVirtio = [] := by
    simp only [List.filter_eq_nil_iff]
    intro d hd
    simp [h d hd]
  rcases List.append_eq_nil.mp (htl ▸ this) with ⟨h1, _⟩
  exact h1

/-- When every matching device abandons, no attempted candidate succeeds. -/
lemma any_succeeds_false {devs : List PciDevice}
    (h : ∀ d ∈ devs, matchesVirtio d = true →
      (boot_from_device d.env).1 = .abandoned) :
    (attempted devs).any succeedsB = false := by
  rw [List.any_eq_false]
  intro d hd
  have hm := attempted_matches hd
  have := h d (attempted_subset hd) hm
  simp [succeedsB, this, BootOutcome.toBool]

/-- Once a candidate in the attempted list succeeds, it is the last one. -/
lemma attempted_succeeds_last {devs l1 l2 : _} {d : PciDevice}
    (h : attempted devs = l1 ++ d :: l2) (hs : succeedsB d = true) :
    l2 = [] := by
  induction devs generalizing l1 with
  | nil => simp [attempted] at h
  | cons a rest ih =>
    simp only [attempted] at h
    by_cases hm : matchesVirtio a
    · rw [if_pos hm] at h
      by_cases hsa : succeedsB a
      · rw [if_pos hsa] at h
        cases l1 with
        | nil =>
          simp at h
          exact h.2
        | cons x xs =>
          simp at h
      · rw [if_neg hsa] at h
        cases l1 with
        | nil =>
          simp at h
          rcases h with ⟨h1, _⟩
          rw [h1] at hsa
          exact absurd hs hsa
        | cons x xs =>
          simp at h
          exact ih h.2
    · rw [if_neg hm] at h
      exact ih h

/-- C1: for every device whose init succeeds, whose EFI partition is found,
whose filesystem mounts, and for which the default-entry loader resolves a
target, `boot_from_device` reaches the kernel control transfer and never
calls `Filesystem.open` on the fallback path: the default-entry strategy
has strict priority over the PE/EFI fallback. -/
theorem boot_default_entry_has_priority (env : DeviceEnv)
    (hinit : env.initResult = .ok ())
    (hpart : ∃ p, env.partitionResult = .ok p)
    (hfs : env.fsInitResult = .ok ())
    (hde : env.defaultEntryResult = .ok ()) :
    (boot_from_device env).1 = .divergedKernelBoot ∧
    Event.kernelBoot ∈ (boot_from_device env).2 ∧
    ∀ p, Event.fsOpen p ∉ (boot_from_device env).2 := by
  rcases hpart with ⟨⟨ps, pq⟩, hpart⟩
  simp [boot_from_device, hinit, hpart, hfs, hde]

/-- Witness for C1 at a concrete fully bootable device environment. -/
theorem boot_default_entry_has_priority_witness :
    (boot_from_device kernelEnv).1 = .divergedKernelBoot ∧
    Event.fsOpen FALLBACK_PATH ∉ (boot_from_device kernelEnv).2 :=
  ⟨(boot_default_entry_has_priority kernelEnv rfl ⟨(2048, 104448), rfl⟩
      rfl rfl).1,
   (boot_default_entry_has_priority kernelEnv rfl ⟨(2048, 104448), rfl⟩
      rfl rfl).2.2 FALLBACK_PATH⟩

/-- C2: if block-device init fails, `boot_from_device` abandons with device
init as its only collaborator call (no partition scan, no filesystem
construction or init, no loader call); and each later stage is equally
gated on all previous stages succeeding. -/
theorem boot_init_failure_short_circuits (env : DeviceEnv) (e : String)
    (h : env.initResult = .error e) :
    ((boot_from_device env).1 = .abandoned ∧
      calls (boot_from_device env).2 = [.deviceInit]) ∧
    (∀ env2 : DeviceEnv, Event.findEfiPartition ∈ (boot_from_device env2).2 →
      env2.initResult = .ok ()) ∧
    (∀ env2 : DeviceEnv, Event.fsInit ∈ (boot_from_device env2).2 →
      ∃ p, env2.partitionResult = .ok p) ∧
    (∀ env2 : DeviceEnv, Event.loadDefaultEntry ∈ (boot_from_device env2).2 →
      env2.fsInitResult = .ok ()) ∧
    (∀ env2 : DeviceEnv, Event.fsOpen FALLBACK_PATH ∈ (boot_from_device env2).2 →
      ∃ e2, env2.defaultEntryResult = .error e2) ∧
    (∀ env2 : DeviceEnv, Event.peLoad PE_LOAD_ADDR ∈ (boot_from_device env2).2 →
      env2.openResult FALLBACK_PATH = .ok ()) :=
  ⟨by simp [boot_from_device, h, calls, Event.isLog],
   init_gate, partition_gate, fs_gate, default_entry_gate, open_gate⟩

/-- Witness for C2 at a concrete device whose init fails. -/
theorem boot_init_failure_short_circuits_witness :
    (boot_from_device deadEnv).1 = .abandoned ∧
    calls (boot_from_device deadEnv).2 = [.deviceInit] :=
  (boot_init_failure_short_circuits deadEnv "Timeout" rfl).1

/-- C6: when the fallback file opens but the PE loader fails at the fixed
base, `boot_from_device` logs the loader error and abandons without
invoking the EFI exec shim. -/
theorem boot_pe_load_failure_abandons (env : DeviceEnv) (e e2 : String)
    (hinit : env.initResult = .ok ())
    (hpart : ∃ p, env.partitionResult = .ok p)
    (hfs : env.fsInitResult = .ok ())
    (hde : env.defaultEntryResult = .error e)
    (hopen : env.openResult FALLBACK_PATH = .ok ())
    (hpe : env.peLoadResult PE_LOAD_ADDR = .error e2) :
    (boot_from_device env).1 = .abandoned ∧
    Event.log "Error loading executable" ∈ (boot_from_device env).2 ∧
    ∀ a b c, Event.efiExec a b c ∉ (boot_from_device env).2 := by
  rcases hpart with ⟨⟨ps, pq⟩, hpart⟩
  simp [boot_from_device, hinit, hpart, hfs, hde, hopen, hpe]

/-- Witness for C6 at a concrete device with an invalid PE fallback file. -/
theorem boot_pe_load_failure_abandons_witness :
    (boot_from_device badPeEnv).1 = .abandoned ∧
    Event.efiExec 0x201000 0x200000 0x8000 ∉ (boot_from_device badPeEnv).2 :=
  ⟨(boot_pe_load_failure_abandons badPeEnv "NotFound" "InvalidExecutable"
      rfl ⟨(2048, 104448), rfl⟩ rfl rfl rfl rfl).1,
   (boot_pe_load_failure_abandons badPeEnv "NotFound" "InvalidExecutable"
      rfl ⟨(2048, 104448), rfl⟩ rfl rfl rfl rfl).2.2 0x201000 0x200000 0x8000⟩

/-- C8: every fallback attempt passes the one fixed path literal to
`Filesystem.open`, opaquely; the literal is "/EFI/BOOT/BOOTX64 EFI",
whose characters hold a space right before the trailing EFI and no dot
anywhere. -/
theorem fallback_path_fixed_opaque :
    (∀ env p, Event.fsOpen p ∈ (boot_from_device env).2 → p = FALLBACK_PATH) ∧
    FALLBACK_PATH = "/EFI/BOOT/BOOTX64 EFI" ∧
    FALLBACK_PATH.data
      = "/EFI/BOOT/BOOTX64".data ++ [' '] ++ "EFI".data ∧
    '.' ∉ FALLBACK_PATH.data := by
  refine ⟨?_, rfl, by decide, by decide⟩
  intro env p hmem
  rcases h1 : env.initResult with e1 | u1
  · simp [boot_from_device, h1] at hmem
  · rcases h2 : env.partitionResult with e2 | ⟨ps, pq⟩
    · simp [boot_from_device, h1, h2] at hmem
    · rcases h3 : env.fsInitResult with e3 | u3
      · simp [boot_from_device, h1, h2, h3] at hmem
      · rcases h4 : env.defaultEntryResult with e4 | u4
        · rcases h5 : env.openResult FALLBACK_PATH with e5 | u5
          · simp [boot_from_device, h1, h2, h3, h4, h5] at hmem
            exact hmem
          · rcases h6 : env.peLoadResult PE_LOAD_ADDR with e6 | ⟨ea, la, sz⟩
            · simp [boot_from_device, h1, h2, h3, h4, h5, h6] at hmem
              exact hmem
            · simp [boot_from_device, h1, h2, h3, h4, h5, h6] at hmem
              exact hmem
        · simp [boot_from_device, h1, h2, h3, h4] at hmem

/-- Witness for C8: a concrete fallback run opens exactly the fixed literal. -/
theorem fallback_path_fixed_opaque_witness :
    Event.fsOpen "/EFI/BOOT/BOOTX64 EFI" ∈ (boot_from_device efiEnv).2 ∧
    "/EFI/BOOT/BOOTX64 EFI" = FALLBACK_PATH :=
  ⟨by decide, fallback_path_fixed_opaque.1 efiEnv _ (by decide)⟩

/-- C9: after a successful device init, the reported capacity influences
neither the control path nor the outcome of `boot_from_device`: any two
capacities give the same collaborator-call sequence and the same result
(capacity is logged for observability only). -/
theorem capacity_noninterference (env : DeviceEnv) (c c2 : Nat)
    (hinit : env.initResult = .ok ()) :
    (boot_from_device { env with capacity := c }).1
        = (boot_from_device { env with capacity := c2 }).1 ∧
    calls (boot_from_device { env with capacity := c }).2
        = calls (boot_from_device { env with capacity := c2 }).2 := by
  rcases h2 : env.partitionResult with e2 | ⟨ps, pq⟩ <;>
    rcases h3 : env.fsInitResult with e3 | u3 <;>
      rcases h4 : env.defaultEntryResult with e4 | u4 <;>
        rcases h5 : env.openResult FALLBACK_PATH with e5 | u5 <;>
          rcases h6 : env.peLoadResult PE_LOAD_ADDR with e6 | ⟨ea, la, sz⟩ <;>
            simp [boot_from_device, hinit, h2, h3, h4, h5, h6, calls,
              Event.isLog]

/-- Witness for C9 at two very different concrete capacities. -/
theorem capacity_noninterference_witness :
    (boot_from_device { kernelEnv with capacity := 0 }).1
        = (boot_from_device { kernelEnv with capacity := 999999 }).1 ∧
    calls (boot_from_device { kernelEnv with capacity := 0 }).2
        = calls (boot_from_device { kernelEnv with capacity := 999999 }).2 :=
  capacity_noninterference kernelEnv 0 999999 rfl

/-- C10: `enable_sse` changes exactly four control-register bits and no
others: in CR0 it clears EMULATE_COPROCESSOR (bit 2) and sets
MONITOR_COPROCESSOR (bit 1), and in CR4 it sets OSFXSR (bit 9) and
OSXMMEXCPT_ENABLE (bit 10); every other bit of the two 64-bit registers is
written back with its previous value. -/
theorem enable_sse_frame (cr0 cr4 : Nat) (h0 : cr0 < 2 ^ 64) :
    ((enable_sse cr0 cr4).1.testBit 2 = false ∧
     (enable_sse cr0 cr4).1.testBit 1 = true ∧
     ∀ i, i ≠ 1 → i ≠ 2 →
       (enable_sse cr0 cr4).1.testBit i = cr0.testBit i) ∧
    ((enable_sse cr0 cr4).2.testBit 9 = true ∧
     (enable_sse cr0 cr4).2.testBit 10 = true ∧
     ∀ i, i ≠ 9 → i ≠ 10 →
       (enable_sse cr0 cr4).2.testBit i = cr4.testBit i) := by
  have e1 : (enable_sse cr0 cr4).1
      = (cr0 &&& ((2 ^ 64 - 1) ^^^ 2 ^ 2)) ||| 2 ^ 1 := rfl
  have e2 : (enable_sse cr0 cr4).2 = (cr4 ||| 2 ^ 9) ||| 2 ^ 10 := rfl
  have hM : ∀ i, ((2 ^ 64 - 1) ^^^ 2 ^ 2).testBit i
      = Bool.xor (decide (i < 64)) ((2 ^ 2).testBit i) := fun i => by
    rw [Nat.testBit_xor, Nat.testBit_two_pow_sub_one]
  have t22 : Nat.testBit (2 ^ 2) 2 = true := by decide
  have t12 : Nat.testBit (2 ^ 1) 2 = false := by decide
  have t11 : Nat.testBit (2 ^ 1) 1 = true := by decide
  have t99 : Nat.testBit (2 ^ 9) 9 = true := by decide
  have taa : Nat.testBit (2 ^ 10) 10 = true := by decide
  constructor
  · refine ⟨?_, ?_, ?_⟩
    · rw [e1, Nat.testBit_or, Nat.testBit_and, hM 2, t22, t12]
      simp
    · rw [e1, Nat.testBit_or, t11]
      simp
    · intro i hi1 hi2
      rw [e1, Nat.testBit_or, Nat.testBit_and, hM i,
        Nat.testBit_two_pow_of_ne (Ne.symm hi2),
        Nat.testBit_two_pow_of_ne (Ne.symm hi1)]
      by_cases hi : i < 64
      · simp [hi]
      · have hz : cr0.testBit i = false :=
          Nat.testBit_lt_two_pow
            (lt_of_lt_of_le h0
              (Nat.pow_le_pow_right (by norm_num) (Nat.le_of_not_lt hi)))
        simp [hi, hz]
  · refine ⟨?_, ?_, ?_⟩
    · rw [e2, Nat.testBit_or, Nat.testBit_or, t99]
      simp
    · rw [e2, Nat.testBit_or, taa]
      simp
    · intro i hi1 hi2
      rw [e2, Nat.testBit_or, Nat.testBit_or,
        Nat.testBit_two_pow_of_ne (Ne.symm hi1),
        Nat.testBit_two_pow_of_ne (Ne.symm hi2)]
      simp

/-- Witness for C10 at concrete register values. -/
theorem enable_sse_frame_witness :
    (enable_sse 0x60000010 0x2000).1.testBit 2 = false ∧
    (enable_sse 0x60000010 0x2000).1.testBit 30 = Nat.testBit 0x60000010 30 ∧
    (enable_sse 0x60000010 0x2000).2.testBit 13 = Nat.testBit 0x2000 13 :=
  ⟨(enable_sse_frame 0x60000010 0x2000 (by norm_num)).1.1,
   (enable_sse_frame 0x60000010 0x2000 (by norm_num)).1.2.2 30
     (by decide) (by decide),
   (enable_sse_frame 0x60000010 0x2000 (by norm_num)).2.2.2 13
     (by decide) (by decide)⟩

/-- C3: when every matching device abandons (which covers the zero-match
case), `run` halts permanently behind the final fatal message; with no
matching device at all, no collaborator call ever occurs; and `run` always
ends in one of the two terminal states, never returning. -/
theorem run_exhaustion_halts (lp : Bool) (devs : List PciDevice)
    (h : ∀ d ∈ devs, matchesVirtio d = true →
      (boot_from_device d.env).1 = .abandoned) :
    ((run lp devs).1 = .halted ∧
     (∃ t, (run lp devs).2 = t ++ [Event.hltLoop]) ∧
     Event.panicHandlerEntered ∈ (run lp devs).2 ∧
     (lp = true →
       Event.log ("PANIC: " ++ NO_BOOT_MSG) ∈ (run lp devs).2)) ∧
    ((∀ d ∈ devs, matchesVirtio d = false) →
      (run lp devs).2.filter Event.isCollabCall = []) ∧
    (∀ lp2 devs2, (run lp2 devs2).1 = MainOutcome.halted ∨
      (run lp2 devs2).1 = MainOutcome.diverged) := by
  have hany := any_succeeds_false h
  refine ⟨⟨?_, ?_, ?_, ?_⟩, ?_, ?_⟩
  · rw [run_trace]
    simp [hany]
  · refine ⟨[Event.log "Booting with", Event.printBus]
      ++ (attempted devs).flatMap perDevice
      ++ (Event.panicHandlerEntered ::
          (if lp then [Event.log ("PANIC: " ++ NO_BOOT_MSG)] else [])), ?_⟩
    rw [run_trace]
    cases lp <;> simp [hany, panic_handler]
  · rw [run_trace]
    simp [hany, panic_handler]
  · intro hlp
    subst hlp
    rw [run_trace]
    simp [hany, panic_handler]
  · intro h0
    rw [run_trace]
    have hnil := attempted_nil h0
    cases lp <;>
      simp [hany, hnil, panic_handler, Event.isCollabCall]
  · intro lp2 devs2
    rw [run_trace]
    by_cases hx : (attempted devs2).any succeedsB <;> simp [hx]

/-- Witness for C3 at a concrete bus with one foreign device and one broken
virtio-blk device. -/
theorem run_exhaustion_halts_witness :
    (run true [otherDev, deadDev]).1 = .halted ∧
    Event.log ("PANIC: " ++ NO_BOOT_MSG) ∈ (run true [otherDev, deadDev]).2 :=
  ⟨(run_exhaustion_halts true [otherDev, deadDev] (by decide)).1.1,
   (run_exhaustion_halts true [otherDev, deadDev] (by decide)).1.2.2.2 rfl⟩

/-- C4: enumeration is ordered and short-circuiting: the run trace is the
banner followed by the per-candidate traces of the attempted list in bus
order, where each candidate starts from a freshly constructed transport
and block device and its trace depends only on its own collaborators; the
attempted list is an initial segment of the matching devices in bus order;
and once an attempted candidate succeeds it is the last one probed. -/
theorem run_enumeration_ordered (lp : Bool) (devs : List PciDevice) :
    ((run lp devs).2
        = [Event.log "Booting with", Event.printBus]
            ++ (attempted devs).flatMap perDevice
            ++ (if (attempted devs).any succeedsB then []
                else panic_handler lp NO_BOOT_MSG)) ∧
    (∃ rest, devs.filter matchesVirtio = attempted devs ++ rest) ∧
    (∀ l1 d l2, attempted devs = l1 ++ d :: l2 → succeedsB d = true →
      l2 = []) := by
  refine ⟨?_, attempted_filter_split devs, ?_⟩
  · rw [run_trace]
  · intro l1 d l2 hsplit hs
    exact attempted_succeeds_last hsplit hs

/-- Witness for C4 on a concrete four-device bus: the trace equation holds
and the succeeding candidate closes the attempted list. -/
theorem run_enumeration_ordered_witness :
    ((run true demoDevs).2
        = [Event.log "Booting with", Event.printBus]
            ++ (attempted demoDevs).flatMap perDevice
            ++ (if (attempted demoDevs).any succeedsB then []
                else panic_handler true NO_BOOT_MSG)) ∧
    ([] : List PciDevice) = [] :=
  ⟨(run_enumeration_ordered true demoDevs).1,
   (run_enumeration_ordered true demoDevs).2.2 [deadDev] bootableDev []
     rfl rfl⟩

/-- C5 counterexample: on a bus with two matching devices whose first
attempt diverges, attempt-boot runs exactly once (one device-init call)
although two devices match the identity pair, so attempt-boot is NOT
invoked exactly for the matching devices. -/
theorem attempt_exactness_counterexample :
    ((attempted twoBootable).length = 1 ∧
     (twoBootable.filter matchesVirtio).length = 2 ∧
     (run true twoBootable).2.count Event.deviceInit = 1) ∧
    attempted twoBootable ≠ twoBootable.filter matchesVirtio := by
  refine ⟨by decide, fun h => ?_⟩
  have hl : (1 : Nat) = 2 := by
    have h1 : (attempted twoBootable).length = 1 := by decide
    have h2 : (twoBootable.filter matchesVirtio).length = 2 := by decide
    rw [← h1, ← h2, h]
  exact absurd hl (by decide)

/-- C5 amended: attempt-boot is invoked exactly for the matching devices up
to and including the first whose attempt diverges: the attempted list is an
initial segment of the matching devices, equals it whenever no matching
device boots, holds matching devices only, and all collaborator calls of a
run come from attempted devices, so a non-matching device produces zero
calls into the block device, partition finder or filesystem. -/
theorem attempt_invoked_matching_upto_success (devs : List PciDevice) :
    (∃ rest, devs.filter matchesVirtio = attempted devs ++ rest) ∧
    ((∀ d ∈ devs, matchesVirtio d = true → succeedsB d = false) →
      attempted devs = devs.filter matchesVirtio) ∧
    (∀ d ∈ attempted devs, matchesVirtio d = true) ∧
    (∀ lp, (run lp devs).2.filter Event.isCollabCall
        = ((attempted devs).flatMap perDevice).filter Event.isCollabCall) := by
  refine ⟨attempted_filter_split devs, attempted_eq_filter,
    fun d hd => attempted_matches hd, ?_⟩
  intro lp
  rw [run_trace]
  by_cases hx : (attempted devs).any succeedsB <;>
    cases lp <;>
      simp [hx, panic_handler, Event.isCollabCall, List.filter_append]

/-- Witness for the amended C5 on concrete buses. -/
theorem attempt_invoked_matching_upto_success_witness :
    attempted [otherDev, deadDev] = [otherDev, deadDev].filter matchesVirtio ∧
    (run true twoBootable).2.filter Event.isCollabCall
      = ((attempted twoBootable).flatMap perDevice).filter Event.isCollabCall :=
  ⟨(attempt_invoked_matching_upto_success [otherDev, deadDev]).2.1 (by decide),
   (attempt_invoked_matching_upto_success twoBootable).2.2.2 true⟩

/-- C7 counterexample: in correct operation with zero matching devices the
orderly no-bootable-device halt is reached, and the global panic handler IS
invoked on that path (the final fatal message of `main` goes through the
`panic!` macro, which dispatches to the registered handler), refuting that
the halt is reached without the fault handler being invoked. -/
theorem no_boot_halt_invokes_handler_counterexample :
    ¬ ((run true []).1 = MainOutcome.halted →
        Event.panicHandlerEntered ∉ (run true []).2) := by decide

/-- C7 amended: the two fatal paths are not structurally disjoint: the
no-bootable-device exhaustion of `run` terminates by invoking the same
global panic handler with the fatal message, and that one handler gives
both paths their identical observable behaviour: handler entry, one
optional log line (present exactly in the log-panic build), then the
permanent hlt loop. -/
theorem fatal_paths_share_panic_handler (lp : Bool) (devs : List PciDevice)
    (h : ∀ d ∈ devs, matchesVirtio d = true →
      (boot_from_device d.env).1 = .abandoned) :
    ((run lp devs).1 = .halted ∧
     ∃ t, (run lp devs).2 = t ++ panic_handler lp NO_BOOT_MSG) ∧
    (∀ msg, Event.panicHandlerEntered ∈ panic_handler true msg ∧
      Event.panicHandlerEntered ∈ panic_handler false msg ∧
      panic_handler true msg
        = [Event.panicHandlerEntered, Event.log ("PANIC: " ++ msg),
           Event.hltLoop] ∧
      panic_handler false msg = [Event.panicHandlerEntered, Event.hltLoop]) := by
  have hany := any_succeeds_false h
  refine ⟨⟨?_, ?_⟩, ?_⟩
  · rw [run_trace]
    simp [hany]
  · refine ⟨[Event.log "Booting with", Event.printBus]
      ++ (attempted devs).flatMap perDevice, ?_⟩
    rw [run_trace]
    simp [hany]
  · intro msg
    exact ⟨by simp [panic_handler], by simp [panic_handler], rfl, rfl⟩

/-- Witness for the amended C7 on a concrete bus with one broken device. -/
theorem fatal_paths_share_panic_handler_witness :
    (run false [deadDev]).1 = .halted ∧
    panic_handler false NO_BOOT_MSG
      = [Event.panicHandlerEntered, Event.hltLoop] :=
  ⟨(fatal_paths_share_panic_handler false [deadDev] (by decide)).1.1,
   ((fatal_paths_share_panic_handler false [deadDev] (by decide)).2
     NO_BOOT_MSG).2.2.2⟩
